import Mathlib

/-!
Shallow embedding of the uRustLogger crate (src/src/lib.rs).

The Rust code is a leveled logger: a `Logger` accumulates rendered fragments
in a string buffer, tags them with a `LogLevel`, and on `print` (flush) emits
one formatted line to the console sink and/or the file sink, then resets the
buffer and the level.  External effects (stdout, the file system, the local
clock) are made explicit: `print` returns the strings it writes as an output
record, the clock is an explicit `LocalTime` argument, and the file system is
an explicit association list from paths to contents.
-/

/-- Severity levels, in the declaration order of the Rust `enum LogLevel`.
`derive(PartialOrd)` on a fieldless Rust enum compares declaration-order
discriminants, which `disc` reproduces. -/
inductive LogLevel : Type where
  | verbose
  | debug
  | info
  | warning
  | error
  | fatal
  | fixed
deriving DecidableEq, Repr

/-- Discriminant of a `LogLevel` variant (its declaration index), the value
the derived Rust `PartialOrd` compares. -/
def LogLevel.disc : LogLevel → Nat
  | .verbose => 0
  | .debug => 1
  | .info => 2
  | .warning => 3
  | .error => 4
  | .fatal => 5
  | .fixed => 6

/-- Embedding of Rust `self.current_level >= self.console_threshold`:
the derived `PartialOrd::ge`, i.e. discriminant comparison. -/
def LogLevel.ge (a b : LogLevel) : Bool := b.disc ≤ a.disc

/-- Fixed-width display label of a level (Rust `impl Display for LogLevel`). -/
def LogLevel.label : LogLevel → String
  | .verbose => "VERBOSE"
  | .debug => "  DEBUG"
  | .info => "   INFO"
  | .warning => "WARNING"
  | .error => "  ERROR"
  | .fatal => "  FATAL"
  | .fixed => "  FIXED"

/-- ANSI color escape sequence of a level (Rust `LogLevel::color`). -/
def LogLevel.color : LogLevel → String
  | .verbose => "\x1b[90m"
  | .debug => "\x1b[96m"
  | .info => "\x1b[92m"
  | .warning => "\x1b[93m"
  | .error => "\x1b[91m"
  | .fatal => "\x1b[95m"
  | .fixed => "\x1b[97m"

/-- Icon glyph of a level (Rust `LogLevel::icon`). -/
def LogLevel.icon : LogLevel → String
  | .verbose => "💬"
  | .debug => "🐞"
  | .info => "ℹ️"
  | .warning => "⚠️"
  | .error => "❌"
  | .fatal => "💀"
  | .fixed => "✅"

/-- Local wall-clock instant, the data `chrono::Local::now()` supplies to the
format strings used by the logger (`%Y %m %d %H %M %S` and `%.6f`). -/
structure LocalTime : Type where
  year : Nat
  month : Nat
  day : Nat
  hour : Nat
  minute : Nat
  second : Nat
  micro : Nat
deriving DecidableEq, Repr

/-- Character for the decimal digit `d` (`d < 10`). -/
def digitChar (d : Nat) : Char := Char.ofNat (48 + d)

/-- Two-digit zero-padded decimal rendering (chrono `%m`, `%d`, `%H`, `%M`,
`%S`), digit extraction written with `/` and `% 10`. -/
def pad2 (n : Nat) : List Char := [digitChar (n / 10 % 10), digitChar (n % 10)]

/-- Four-digit zero-padded decimal rendering (chrono `%Y` for common-era
four-digit years). -/
def pad4 (n : Nat) : List Char :=
  [digitChar (n / 1000 % 10), digitChar (n / 100 % 10),
   digitChar (n / 10 % 10), digitChar (n % 10)]

/-- Six-digit zero-padded fractional-second rendering (chrono `%.6f`, without
its leading dot). -/
def pad6 (n : Nat) : List Char :=
  [digitChar (n / 100000 % 10), digitChar (n / 10000 % 10),
   digitChar (n / 1000 % 10), digitChar (n / 100 % 10),
   digitChar (n / 10 % 10), digitChar (n % 10)]

/-- chrono format `%H:%M:%S%.6f`. -/
def fmtTime (t : LocalTime) : String :=
  String.mk (pad2 t.hour ++ [':'] ++ pad2 t.minute ++ [':'] ++ pad2 t.second
    ++ ['.'] ++ pad6 t.micro)

/-- chrono format `%Y-%m-%d`. -/
def fmtDate (t : LocalTime) : String :=
  String.mk (pad4 t.year ++ ['-'] ++ pad2 t.month ++ ['-'] ++ pad2 t.day)

/-- chrono format `%Y%m%d_%H%M%S`, used for the log-file name. -/
def fmtFileStamp (t : LocalTime) : String :=
  String.mk (pad4 t.year ++ pad2 t.month ++ pad2 t.day ++ ['_']
    ++ pad2 t.hour ++ pad2 t.minute ++ pad2 t.second)

/-- Rust `Display` rendering of a nonnegative integer. -/
def natDisplay (n : Nat) : String :=
  if n = 0 then "0" else String.mk ((Nat.digits 10 n).reverse.map digitChar)

/-- Rust `Display` rendering of a signed integer. -/
def intDisplay (i : Int) : String :=
  if i < 0 then "-" ++ natDisplay i.natAbs else natDisplay i.natAbs

/-- Character for the hexadecimal digit `d` (`d < 16`), uppercase, as
produced by Rust's `{:X}` formatting. -/
def hexDigitCharU (d : Nat) : Char :=
  if d < 10 then Char.ofNat (48 + d) else Char.ofNat (55 + d)

/-- Rust `{:X}` rendering of an unsigned integer: uppercase hexadecimal with
no leading zeros (`0` renders as `"0"`). -/
def hexUpper (n : Nat) : String :=
  if n = 0 then "0" else String.mk ((Nat.digits 16 n).reverse.map hexDigitCharU)

/-- File-system model: association list from paths to file contents.  The
crate only ever touches the file it opened, so this is enough structure. -/
abbrev FileSystem := List (String × String)

/-- Content of the file at path `q`, when it exists. -/
def fsLookup : FileSystem → String → Option String
  | [], _ => none
  | (p, c) :: rest, q => if p = q then some c else fsLookup rest q

/-- Effect of `OpenOptions::new().create(true).write(true).open(p)` on the
file system: a missing file is created empty; an existing file is opened as
is — these options do NOT include `truncate(true)`, so existing content is
preserved by the open. -/
def openCreateWrite (fs : FileSystem) (p : String) : FileSystem :=
  match fsLookup fs p with
  | some _ => fs
  | none => (p, "") :: fs

/-- The logger state (Rust `struct Logger`).  `log_file` holds the identity
(path) of the open file handle; file contents live in the explicit
`FileSystem`. -/
structure Logger : Type where
  buffer : String
  current_level : LogLevel
  console_threshold : LogLevel
  file_threshold : LogLevel
  file_logging_enabled : Bool
  use_colors : Bool
  include_date : Bool
  use_icons_in_file : Bool
  log_file : Option String
  log_file_path : Option String
deriving DecidableEq, Repr

/-- Rust `Logger::new`. -/
def Logger.new : Logger where
  buffer := ""
  current_level := .info
  console_threshold := .verbose
  file_threshold := .verbose
  file_logging_enabled := false
  use_colors := true
  include_date := true
  use_icons_in_file := false
  log_file := none
  log_file_path := none

/-- Rust `Logger::append`: push the `Display` rendering `s` of the value plus
one trailing space (`format!("{} ", value)`). -/
def Logger.append (l : Logger) (s : String) : Logger :=
  { l with buffer := l.buffer ++ (s ++ " ") }

/-- Rust `Logger::append_bool`. -/
def Logger.append_bool (l : Logger) (value : Bool) : Logger :=
  { l with buffer := l.buffer ++ (if value then "true " else "false ") }

/-- Rust `Logger::append_hex`: push `format!("0x{:X} ", value)`. -/
def Logger.append_hex (l : Logger) (value : Nat) : Logger :=
  { l with buffer := l.buffer ++ ("0x" ++ hexUpper value ++ " ") }

/-- Rust `Logger::reset`: clear the buffer, reset the level to `Info`. -/
def Logger.reset (l : Logger) : Logger :=
  { l with buffer := "", current_level := .info }

/-- Rust `Logger::timestamp`: date + time or time only, each followed by
`" | "`. -/
def Logger.timestamp (l : Logger) (now : LocalTime) : String :=
  if l.include_date then fmtDate now ++ " " ++ fmtTime now ++ " | "
  else fmtTime now ++ " | "

/-- What one flush wrote: the string emitted to stdout, if any, and the
string handed to `file.write_all`, if any. -/
structure FlushOutput : Type where
  console : Option String
  file : Option String
deriving DecidableEq, Repr

/-- Rust `Logger::print` (flush).  `writeOk` is whether the OS-level
`write_all` to the already-open file succeeds; the code discards that result
(`let _ = file.write_all(..)`), so the returned logger state never depends on
it.  The console branch is gated by `current_level >= console_threshold`; the
file branch only by the enabled flag and an open handle. -/
def Logger.print (l : Logger) (now : LocalTime) (writeOk : Bool) :
    Logger × FlushOutput :=
  let ts := l.timestamp now
  let consoleOut : Option String :=
    if l.current_level.ge l.console_threshold then
      let msg := ts ++ l.current_level.label ++ " | " ++ l.buffer ++ "\n"
      some (if l.use_colors then l.current_level.color ++ msg ++ "\x1b[0m" else msg)
    else none
  let fileOut : Option String :=
    if l.file_logging_enabled then
      match l.log_file with
      | some _ =>
        let level_repr :=
          if l.use_icons_in_file then l.current_level.icon else l.current_level.label
        if writeOk then some (ts ++ level_repr ++ " | " ++ l.buffer ++ "\n") else none
      | none => none
    else none
  (l.reset, ⟨consoleOut, fileOut⟩)

/-- Rust `Logger::set_level`. -/
def Logger.set_level (l : Logger) (level : LogLevel) : Logger :=
  { l with current_level := level }

/-- Rust `Logger::set_console_threshold`. -/
def Logger.set_console_threshold (l : Logger) (level : LogLevel) : Logger :=
  { l with console_threshold := level }

/-- Rust `Logger::set_file_threshold`. -/
def Logger.set_file_threshold (l : Logger) (level : LogLevel) : Logger :=
  { l with file_threshold := level }

/-- Log-file name derived from the current local time:
`format!("log_{}.txt", now.format("%Y%m%d_%H%M%S"))`. -/
def logFileName (now : LocalTime) : String := "log_" ++ fmtFileStamp now ++ ".txt"

/-- Rust `Logger::enable_file_logging`.  `openOk` is whether the OS open
call succeeds; the code unwraps its result, so a failed open panics, which
this embedding renders as `Except.error ()` (no successor state).  When
already enabled the body is skipped entirely. -/
def Logger.enable_file_logging (l : Logger) (fs : FileSystem) (now : LocalTime)
    (openOk : Bool) : Except Unit (Logger × FileSystem) :=
  if !l.file_logging_enabled then
    if openOk then
      let filename := logFileName now
      Except.ok
        ({ l with log_file := some filename,
                  log_file_path := some filename,
                  file_logging_enabled := true },
         openCreateWrite fs filename)
    else Except.error ()
  else Except.ok (l, fs)

/-- Rust `Logger::disable_file_logging`: drop the handle, clear the path,
clear the flag; total, never fails. -/
def Logger.disable_file_logging (l : Logger) : Logger :=
  { l with log_file := none, file_logging_enabled := false, log_file_path := none }

/-! ### Spec-side order and reachability -/

/-- The total order of severities exactly as the spec lists it:
`Verbose < Debug < Info < Warning < Error < Fatal < Fixed`. -/
def levelOrder : List LogLevel :=
  [.verbose, .debug, .info, .warning, .error, .fatal, .fixed]

/-- Position of a level in the spec's listed order. -/
def specIndex (a : LogLevel) : Nat := levelOrder.findIdx (fun b => b = a)

/-- The code's derived `>=` (discriminant comparison) agrees with the order
the spec lists. -/
theorem ge_iff_specIndex (a b : LogLevel) :
    a.ge b = true ↔ specIndex b ≤ specIndex a := by
  cases a <;> cases b <;> decide

/-- FileSink invariant of the spec: the resource (handle) is open iff the
enabled flag is true and the path is set. -/
def fileInvariant (l : Logger) : Prop :=
  l.log_file.isSome = (l.file_logging_enabled && l.log_file_path.isSome)

/-- States of the logger reachable through its public operations, starting
from `Logger.new`.  `flags` covers the direct writes to the public
configuration fields done by `log_init!`.  The `enable` step only admits the
non-panicking (`Except.ok`) outcome, as a panic leaves no successor state. -/
inductive Reachable : Logger → Prop where
  | new : Reachable Logger.new
  | append (l : Logger) (s : String) : Reachable l → Reachable (l.append s)
  | append_bool (l : Logger) (b : Bool) : Reachable l → Reachable (l.append_bool b)
  | append_hex (l : Logger) (v : Nat) : Reachable l → Reachable (l.append_hex v)
  | set_level (l : Logger) (lv : LogLevel) : Reachable l → Reachable (l.set_level lv)
  | set_console_threshold (l : Logger) (lv : LogLevel) :
      Reachable l → Reachable (l.set_console_threshold lv)
  | set_file_threshold (l : Logger) (lv : LogLevel) :
      Reachable l → Reachable (l.set_file_threshold lv)
  | flags (l : Logger) (c d i : Bool) :
      Reachable l →
      Reachable { l with use_colors := c, include_date := d, use_icons_in_file := i }
  | print (l : Logger) (now : LocalTime) (w : Bool) :
      Reachable l → Reachable (l.print now w).1
  | enable (l : Logger) (fs : FileSystem) (now : LocalTime) (ok : Bool)
      (l2 : Logger) (fs2 : FileSystem) : Reachable l →
      l.enable_file_logging fs now ok = Except.ok (l2, fs2) → Reachable l2
  | disable (l : Logger) : Reachable l → Reachable l.disable_file_logging

/-! ### Character and digit pattern helpers -/

/-- Decimal digit character test (`0`–`9`). -/
def isDigitB (c : Char) : Bool := 48 ≤ c.toNat && c.toNat ≤ 57

/-- Every character `digitChar` produces from a reduced digit is a decimal
digit character. -/
theorem isDigitB_digitChar_mod (x : Nat) : isDigitB (digitChar (x % 10)) = true := by
  have h : x % 10 < 10 := Nat.mod_lt _ (by decide)
  interval_cases hx : x % 10 <;> decide

/-- Checker for the spec's console time pattern `HH:MM:SS\.\d{6}`. -/
def timeDigitsOk (s : String) : Bool :=
  match s.data with
  | [h1, h2, c1, m1, m2, c2, s1, s2, d, u1, u2, u3, u4, u5, u6] =>
    isDigitB h1 && isDigitB h2 && (c1 == ':') && isDigitB m1 && isDigitB m2 &&
    (c2 == ':') && isDigitB s1 && isDigitB s2 && (d == '.') &&
    isDigitB u1 && isDigitB u2 && isDigitB u3 && isDigitB u4 && isDigitB u5 && isDigitB u6
  | _ => false

/-- The time-only timestamp body always matches `HH:MM:SS\.\d{6}`. -/
theorem timeDigitsOk_fmtTime (t : LocalTime) : timeDigitsOk (fmtTime t) = true := by
  simp [timeDigitsOk, fmtTime, pad2, pad6, isDigitB_digitChar_mod]

/-- Checker for the spec's file name pattern `log_<YYYYMMDD>_<HHMMSS>.txt`. -/
def fileNameOk (s : String) : Bool :=
  match s.data with
  | 'l' :: 'o' :: 'g' :: '_' :: y1 :: y2 :: y3 :: y4 :: m1 :: m2 :: d1 :: d2 ::
      '_' :: h1 :: h2 :: mi1 :: mi2 :: s1 :: s2 :: '.' :: 't' :: 'x' :: 't' :: [] =>
    isDigitB y1 && isDigitB y2 && isDigitB y3 && isDigitB y4 &&
    isDigitB m1 && isDigitB m2 && isDigitB d1 && isDigitB d2 &&
    isDigitB h1 && isDigitB h2 && isDigitB mi1 && isDigitB mi2 &&
    isDigitB s1 && isDigitB s2
  | _ => false

/-- The derived log-file name always matches `log_<YYYYMMDD>_<HHMMSS>.txt`. -/
theorem fileNameOk_logFileName (t : LocalTime) : fileNameOk (logFileName t) = true := by
  simp [fileNameOk, logFileName, fmtFileStamp, pad4, pad2, isDigitB_digitChar_mod,
    String.append]

/-! ### Hexadecimal rendering helpers -/

/-- Uppercase hexadecimal digit character test (`0`–`9`, `A`–`F`). -/
def isUpperHexDigitB (c : Char) : Bool :=
  (48 ≤ c.toNat && c.toNat ≤ 57) || (65 ≤ c.toNat && c.toNat ≤ 70)

/-- A nonempty string of uppercase hexadecimal digit characters. -/
def hexNumeralOk (s : String) : Bool := !s.data.isEmpty && s.data.all isUpperHexDigitB

/-- Numeric value of one uppercase hexadecimal digit character. -/
def hexCharVal (c : Char) : Nat := if c.toNat ≤ 57 then c.toNat - 48 else c.toNat - 55

/-- Numeric value of an uppercase hexadecimal numeral, most significant digit
first. -/
def hexStringVal (s : String) : Nat := s.data.foldl (fun a c => 16 * a + hexCharVal c) 0

/-- Reading back a rendered hexadecimal digit recovers the digit. -/
theorem hexCharVal_hexDigitCharU (d : Nat) (h : d < 16) :
    hexCharVal (hexDigitCharU d) = d := by
  interval_cases d <;> decide

/-- Rendered hexadecimal digits are uppercase hexadecimal characters. -/
theorem isUpperHexDigitB_hexDigitCharU (d : Nat) (h : d < 16) :
    isUpperHexDigitB (hexDigitCharU d) = true := by
  interval_cases d <;> decide

/-- Horner evaluation of a reversed, rendered digit list recovers
`Nat.ofDigits`. -/
theorem foldl_hex_reverse (L : List Nat) (hL : ∀ d ∈ L, d < 16) (a : Nat) :
    List.foldl (fun x c => 16 * x + hexCharVal c) a (L.reverse.map hexDigitCharU) =
      a * 16 ^ L.length + Nat.ofDigits 16 L := by
  induction L generalizing a with
  | nil => simp
  | cons d rest ih =>
    have hd : d < 16 := hL d (by simp)
    have hrest : ∀ x ∈ rest, x < 16 := fun x hx => hL x (by simp [hx])
    simp only [List.reverse_cons, List.map_append, List.foldl_append, List.map_cons,
      List.map_nil, List.foldl_cons, List.foldl_nil, ih hrest, Nat.ofDigits_cons,
      List.length_cons, hexCharVal_hexDigitCharU d hd, pow_succ]
    ring

/-- Round trip: the value of the rendered `{:X}` numeral is the value it was
rendered from. -/
theorem hexStringVal_hexUpper (v : Nat) : hexStringVal (hexUpper v) = v := by
  by_cases h0 : v = 0
  · subst h0; decide
  · have hlt : ∀ d ∈ Nat.digits 16 v, d < 16 := fun d hd =>
      Nat.digits_lt_base (by norm_num) hd
    simp only [hexStringVal, hexUpper, h0, if_false]
    show List.foldl _ 0 ((Nat.digits 16 v).reverse.map hexDigitCharU) = v
    rw [foldl_hex_reverse _ hlt 0]
    simp [Nat.ofDigits_digits]

/-- The `{:X}` rendering is a nonempty uppercase hexadecimal numeral. -/
theorem hexNumeralOk_hexUpper (v : Nat) : hexNumeralOk (hexUpper v) = true := by
  by_cases h0 : v = 0
  · subst h0; decide
  · have hne : Nat.digits 16 v ≠ [] := Nat.digits_ne_nil_iff_ne_zero.mpr h0
    simp only [hexNumeralOk, hexUpper, h0, if_false]
    rw [Bool.and_eq_true]
    refine ⟨by simp [List.isEmpty_iff, hne], ?_⟩
    rw [List.all_eq_true]
    intro c hc
    rcases List.mem_map.mp hc with ⟨d, hd, rfl⟩
    exact isUpperHexDigitB_hexDigitCharU d
      (Nat.digits_lt_base (by norm_num) (List.mem_reverse.mp hd))

/-- Concrete evaluation of the `{:X}` rendering at `0xDEADBEEF`. -/
theorem hexUpper_deadbeef : hexUpper 0xDEADBEEF = "DEADBEEF" := by
  norm_num [hexUpper, Nat.digits_def', hexDigitCharU]

/-- Rust `Display` of the `i32` literal `42`. -/
theorem intDisplay_42 : intDisplay 42 = "42" := by
  norm_num [intDisplay, natDisplay, Nat.digits_def', digitChar]

/-- Whole-sink property of states reachable by the public operations: while
file logging is enabled, both the handle and the path are present. -/
theorem reachable_sink_whole (l : Logger) (h : Reachable l) :
    l.file_logging_enabled = true →
      l.log_file.isSome = true ∧ l.log_file_path.isSome = true := by
  induction h with
  | new => intro h; cases h
  | append l s _ ih => exact ih
  | append_bool l b _ ih => exact ih
  | append_hex l v _ ih => exact ih
  | set_level l lv _ ih => exact ih
  | set_console_threshold l lv _ ih => exact ih
  | set_file_threshold l lv _ ih => exact ih
  | flags l c d i _ ih => exact ih
  | print l now w _ ih => exact ih
  | disable l _ _ => intro h; cases h
  | enable l fs now ok l2 fs2 _ heq ih =>
    by_cases he : l.file_logging_enabled = true
    · simp [Logger.enable_file_logging, he] at heq
      rw [← heq.1]
      exact ih
    · rw [Bool.not_eq_true] at he
      cases ok
      · simp [Logger.enable_file_logging, he] at heq
      · simp [Logger.enable_file_logging, he] at heq
        obtain ⟨rfl, rfl⟩ := heq
        intro
        exact ⟨rfl, rfl⟩

/-! ### The claims -/

/-- Time instant used for concrete scenarios. -/
def sampleTime : LocalTime := ⟨2025, 1, 2, 3, 4, 5, 123456⟩

/-- State exhibiting the missing file-threshold check: file logging enabled
(through `enable_file_logging`), file threshold set to `Error`, record level
set to `Verbose`. -/
def c1State : Logger :=
  match (Logger.new.set_file_threshold .error).enable_file_logging []
      sampleTime true with
  | .ok (l, _) => l.set_level .verbose
  | .error _ => Logger.new

/-- C1: refuted on the code — a record whose level `Verbose` is strictly
below the file threshold `Error` is nevertheless handed to the file sink:
the file branch of `print` never consults `file_threshold` (the field and
its setter are dead), so file emission is gated only by the enabled flag. -/
theorem c1_file_sink_ignores_file_threshold :
    c1State.file_threshold = LogLevel.error ∧
    c1State.current_level = LogLevel.verbose ∧
    specIndex c1State.current_level < specIndex c1State.file_threshold ∧
    ((c1State.print sampleTime true).2.file).isSome = true := by
  decide

/-- C2: flush writes the record to the console sink iff the record's level is
at least the console threshold under the spec's listed total order
`Verbose < Debug < Info < Warning < Error < Fatal < Fixed`. -/
theorem c2_console_gated_by_threshold :
    ∀ (l : Logger) (now : LocalTime) (w : Bool),
      (((l.print now w).2.console).isSome = true ↔
        specIndex l.console_threshold ≤ specIndex l.current_level) := by
  intro l now w
  rw [← ge_iff_specIndex]
  by_cases h : l.current_level.ge l.console_threshold = true <;>
    simp [Logger.print, h]

/-- C3: immediately after flush the buffer is empty and the current level is
`Info`, for every prior state (hence every appended fragment sequence, every
level, every configuration) and regardless of the file write outcome. -/
theorem c3_flush_resets_buffer_and_level :
    ∀ (l : Logger) (now : LocalTime) (w : Bool),
      (l.print now w).1.buffer = "" ∧ (l.print now w).1.current_level = .info :=
  fun _ _ _ => ⟨rfl, rfl⟩

/-- C4: in every reachable state the file resource is open iff the enabled
flag is true and the path is set; initial state and every operation preserve
this. -/
theorem c4_file_invariant (l : Logger) (h : Reachable l) : fileInvariant l := by
  induction h with
  | new => rfl
  | append l s _ ih => exact ih
  | append_bool l b _ ih => exact ih
  | append_hex l v _ ih => exact ih
  | set_level l lv _ ih => exact ih
  | set_console_threshold l lv _ ih => exact ih
  | set_file_threshold l lv _ ih => exact ih
  | flags l c d i _ ih => exact ih
  | print l now w _ ih => exact ih
  | disable l _ _ => rfl
  | enable l fs now ok l2 fs2 _ heq ih =>
    by_cases he : l.file_logging_enabled = true
    · simp [Logger.enable_file_logging, he] at heq
      rw [← heq.1]
      exact ih
    · rw [Bool.not_eq_true] at he
      cases ok
      · simp [Logger.enable_file_logging, he] at heq
      · simp [Logger.enable_file_logging, he] at heq
        obtain ⟨rfl, rfl⟩ := heq
        rfl

/-- Witness for C4 at the initial state. -/
theorem c4_file_invariant_witness : fileInvariant Logger.new :=
  c4_file_invariant Logger.new Reachable.new

/-- C5: enabling while already enabled is a no-op returning the logger and
the file system unchanged (same file, same path, same content, no second
file); disabling while disabled (handle and path absent) is a no-op, and
`disable_file_logging` is total, so it produces no error. -/
theorem c5_enable_noop_disable_idempotent
    (l : Logger) (fs : FileSystem) (now : LocalTime) (ok : Bool) :
    (l.file_logging_enabled = true →
      l.enable_file_logging fs now ok = Except.ok (l, fs)) ∧
    (l.file_logging_enabled = false → l.log_file = none → l.log_file_path = none →
      l.disable_file_logging = l) := by
  constructor
  · intro h
    simp [Logger.enable_file_logging, h]
  · intro h1 h2 h3
    cases l
    simp_all [Logger.disable_file_logging]

/-- Enabled logger used to witness C5's no-op-enable conjunct. -/
def c5Enabled : Logger :=
  { Logger.new with
    file_logging_enabled := true,
    log_file := some "log_20250102_030405.txt",
    log_file_path := some "log_20250102_030405.txt" }

/-- Witness for C5: a second enable on an enabled logger changes nothing, and
a disable on the pristine (never-enabled) logger changes nothing. -/
theorem c5_enable_noop_disable_idempotent_witness :
    c5Enabled.enable_file_logging [] sampleTime true = Except.ok (c5Enabled, []) ∧
    Logger.new.disable_file_logging = Logger.new :=
  ⟨(c5_enable_noop_disable_idempotent c5Enabled [] sampleTime true).1 rfl,
   (c5_enable_noop_disable_idempotent Logger.new [] sampleTime true).2 rfl rfl rfl⟩

/-- Logger configured as claim C6 requires: colors disabled, date disabled,
console threshold `T`. -/
def c6Start (T : LogLevel) : Logger :=
  { Logger.new with
    console_threshold := T,
    use_colors := false,
    include_date := false }

/-- Record of claim C6: level `Info`, fragments `"Hello"`, `42` (`i32`,
via `Display`), `true`. -/
def c6Record (T : LogLevel) : Logger :=
  Logger.append_bool
    (Logger.append (Logger.append ((c6Start T).set_level .info) "Hello")
      (intDisplay 42)) true

/-- C6: with colors and date disabled and console threshold at most `Info`,
flushing the record `["Hello", 42, true]` at level `Info` produces exactly
the console line `<HH:MM:SS.dddddd> |    INFO | Hello 42 true \n` — the
level label is the space-padded fixed-width `"   INFO"`, each fragment is
followed by a single space, and the time part matches `HH:MM:SS\.\d{6}`. -/
theorem c6_console_line (T : LogLevel) (hT : specIndex T ≤ specIndex LogLevel.info)
    (now : LocalTime) (w : Bool) :
    ((c6Record T).print now w).2.console =
      some (fmtTime now ++ " | " ++ "   INFO" ++ " | " ++ "Hello 42 true " ++ "\n") ∧
    timeDigitsOk (fmtTime now) = true := by
  refine ⟨?_, timeDigitsOk_fmtTime now⟩
  have hge : LogLevel.info.ge T = true := (ge_iff_specIndex _ _).mpr hT
  simp [c6Record, c6Start, Logger.print, Logger.set_level, Logger.append,
    Logger.append_bool, Logger.timestamp, Logger.new, hge, LogLevel.label, intDisplay_42]

/-- Witness for C6 with threshold `Verbose` at the sample instant. -/
theorem c6_console_line_witness :
    specIndex LogLevel.verbose ≤ specIndex LogLevel.info ∧
    ((c6Record LogLevel.verbose).print sampleTime false).2.console =
      some "03:04:05.123456 |    INFO | Hello 42 true \n" :=
  ⟨by decide, by
    have h := c6_console_line LogLevel.verbose (by decide) sampleTime false
    rw [h.1]
    decide⟩

/-- C7: a failed open in `enable_file_logging` is unwrapped, i.e. the call
panics (`Except.error`) rather than returning; and whenever the call does
return, a logger with the enabled flag set has an open handle — starting from
any reachable state, the operation never yields a half-initialized sink. -/
theorem c7_enable_failure_propagates (l : Logger) (fs : FileSystem) (now : LocalTime) :
    (l.file_logging_enabled = false →
      l.enable_file_logging fs now false = Except.error ()) ∧
    (∀ (ok : Bool) (l2 : Logger) (fs2 : FileSystem),
      Reachable l → l.enable_file_logging fs now ok = Except.ok (l2, fs2) →
      l2.file_logging_enabled = true → l2.log_file.isSome = true) := by
  constructor
  · intro h
    simp [Logger.enable_file_logging, h]
  · intro ok l2 fs2 hreach heq henabled
    by_cases he : l.file_logging_enabled = true
    · simp [Logger.enable_file_logging, he] at heq
      rw [← heq.1]
      exact (reachable_sink_whole l hreach he).1
    · rw [Bool.not_eq_true] at he
      cases ok
      · simp [Logger.enable_file_logging, he] at heq
      · simp [Logger.enable_file_logging, he] at heq
        obtain ⟨rfl, rfl⟩ := heq
        rfl

/-- Resulting state of a successful first enable at the sample instant,
used to witness C7. -/
def c7Enabled : Logger :=
  { Logger.new with
    log_file := some (logFileName sampleTime),
    log_file_path := some (logFileName sampleTime),
    file_logging_enabled := true }

/-- Witness for C7: on the pristine logger a failed open propagates as an
error, and the successful enable yields a state whose handle is open. -/
theorem c7_enable_failure_propagates_witness :
    Logger.new.enable_file_logging [] sampleTime false = Except.error () ∧
    c7Enabled.log_file.isSome = true :=
  ⟨(c7_enable_failure_propagates Logger.new [] sampleTime).1 rfl,
   (c7_enable_failure_propagates Logger.new [] sampleTime).2 true c7Enabled
     [(logFileName sampleTime, "")] Reachable.new rfl rfl⟩

/-- C8: `append_hex` appends exactly `0x`, the uppercase hexadecimal
rendering of the value, and one trailing space; the rendering is a nonempty
string of uppercase hexadecimal digit characters whose value reads back to
the input; at `0xDEADBEEF` the appended text is exactly `"0xDEADBEEF "`. -/
theorem c8_append_hex_uppercase :
    (∀ (l : Logger) (v : Nat),
      (l.append_hex v).buffer = l.buffer ++ ("0x" ++ hexUpper v ++ " ") ∧
      hexNumeralOk (hexUpper v) = true ∧ hexStringVal (hexUpper v) = v) ∧
    (Logger.new.append_hex 0xDEADBEEF).buffer = "0xDEADBEEF " := by
  refine ⟨fun l v => ⟨rfl, hexNumeralOk_hexUpper v, hexStringVal_hexUpper v⟩, ?_⟩
  show "" ++ ("0x" ++ hexUpper 0xDEADBEEF ++ " ") = "0xDEADBEEF "
  rw [hexUpper_deadbeef]
  rfl

/-- Time instant whose derived log-file name collides with the pre-existing
file below. -/
def c9Time : LocalTime := ⟨2025, 1, 2, 3, 4, 5, 0⟩

/-- File system holding a pre-existing file at the path the logger will
derive at `c9Time`. -/
def c9PreFS : FileSystem := [("log_20250102_030405.txt", "old content")]

/-- Content of the derived log file after enabling file logging on the
pristine logger over `c9PreFS` at `c9Time`. -/
def c9After : Option String :=
  match Logger.new.enable_file_logging c9PreFS c9Time true with
  | .ok (_, fs2) => fsLookup fs2 (logFileName c9Time)
  | .error _ => none

/-- Counterexample to C9 as stated: the open uses `create(true).write(true)`
without `truncate(true)`, so a pre-existing file at the derived path keeps
its old content instead of being truncated to empty. -/
theorem c9_truncation_counterexample :
    c9After = some "old content" ∧ c9After ≠ some "" := by decide

/-- C9 (amended): enabling from the Disabled state with a successful open
derives the file name `log_<YYYYMMDD>_<HHMMSS>.txt` from the current local
time, opens it with create-or-open (non-truncating) semantics — a missing
file is created empty, a pre-existing file keeps its content — stores the
path, and sets the enabled flag. -/
theorem c9_enable_create_or_open (l : Logger) (fs : FileSystem) (now : LocalTime)
    (h : l.file_logging_enabled = false) :
    l.enable_file_logging fs now true =
      Except.ok
        ({ l with
            log_file := some (logFileName now),
            log_file_path := some (logFileName now),
            file_logging_enabled := true },
         openCreateWrite fs (logFileName now)) ∧
    fsLookup (openCreateWrite fs (logFileName now)) (logFileName now) =
      some ((fsLookup fs (logFileName now)).getD "") ∧
    fileNameOk (logFileName now) = true := by
  refine ⟨by simp [Logger.enable_file_logging, h], ?_, fileNameOk_logFileName now⟩
  unfold openCreateWrite
  cases hfs : fsLookup fs (logFileName now) <;> simp [hfs, fsLookup]

/-- Witness for C9 (amended) on the pristine logger over the pre-existing
file of the counterexample. -/
theorem c9_enable_create_or_open_witness :
    Logger.new.file_logging_enabled = false ∧
    Logger.new.enable_file_logging c9PreFS c9Time true =
      Except.ok
        ({ Logger.new with
            log_file := some (logFileName c9Time),
            log_file_path := some (logFileName c9Time),
            file_logging_enabled := true },
         openCreateWrite c9PreFS (logFileName c9Time)) :=
  ⟨rfl, (c9_enable_create_or_open Logger.new c9PreFS c9Time rfl).1⟩

/-- C10: flush modifies only the buffer and the current level — both
thresholds, all four flags, the handle, and the stored path are unchanged. -/
theorem c10_flush_frame :
    ∀ (l : Logger) (now : LocalTime) (w : Bool),
      (l.print now w).1.console_threshold = l.console_threshold ∧
      (l.print now w).1.file_threshold = l.file_threshold ∧
      (l.print now w).1.file_logging_enabled = l.file_logging_enabled ∧
      (l.print now w).1.use_colors = l.use_colors ∧
      (l.print now w).1.include_date = l.include_date ∧
      (l.print now w).1.use_icons_in_file = l.use_icons_in_file ∧
      (l.print now w).1.log_file = l.log_file ∧
      (l.print now w).1.log_file_path = l.log_file_path :=
  fun _ _ _ => ⟨rfl, rfl, rfl, rfl, rfl, rfl, rfl, rfl⟩
